import Mathlib

/-!
Verification of the report-extraction core of `tap_google_analytics/client.py`
(class `GoogleAnalyticsStream`).  Python functions are shallowly embedded as
executable Lean definitions: dict-shaped inputs become structures or
association lists, `None` becomes `Option.none`, fatal paths
(`sys.exit(1)`, uncaught `ValueError` / `IndexError` / `AttributeError`)
become `Option.none` results, and the pagination generator becomes a
fuel-indexed loop function.
-/

namespace TapGA

/-! ## Pagination engine: `_is_finished` and the `_request_records` loop -/

/-- Python truthiness of an optional string token (`None` and `""` are falsy). -/
def truthy : Option String → Bool
  | none => false
  | some s => !s.isEmpty

/-- Embedding of `GoogleAnalyticsStream._is_finished` (client.py:272-282):
`if not next_page_token: return True`; `if max_records is None: return False`;
`return total_records >= max_records`. -/
def is_finished (next_page_token : Option String) (total_records : Nat)
    (max_records : Option Nat) : Bool :=
  if !truthy next_page_token then true
  else
    match max_records with
    | none => false
    | some m => decide (m ≤ total_records)

/-- Outcome of the `_request_records` pagination loop.
`ok k`: the loop exited normally having performed `k` page fetches.
`loopError k`: the `RuntimeError` ("Loop detected in pagination") was raised
during iteration `k`, i.e. after the `k`-th request and before any further
request could be issued.  `outOfFuel`: the fuel bound was reached before the
loop terminated (the Python loop would still be running). -/
inductive LoopResult
  | ok (fetches : Nat)
  | loopError (fetches : Nat)
  | outOfFuel
  deriving DecidableEq, Repr

/-- Embedding of the `while not finished` loop of
`GoogleAnalyticsStream._request_records` (client.py:247-269).
`get_token page` is the `nextPageToken` extracted from the response to the
`(page+1)`-th request (`_get_next_page_token`); `prev` is the token that was
used for the current request (`previous_token = copy.deepcopy(next_page_token)`
is taken before the new token is extracted); `total` is `total_records`,
incremented by `page_size` after every request.  The loop-detection guard
`if next_page_token and next_page_token == previous_token: raise RuntimeError`
runs before the `_is_finished` check, exactly as in the source. -/
def request_records_loop (get_token : Nat → Option String) (page_size : Nat)
    (max_records : Option Nat) : Nat → Nat → Option String → Nat → LoopResult
  | 0, _, _, _ => .outOfFuel
  | fuel + 1, page, prev, total =>
    if truthy (get_token page) && (get_token page == prev) then
      .loopError (page + 1)
    else if is_finished (get_token page) (total + page_size) max_records then
      .ok (page + 1)
    else
      request_records_loop get_token page_size max_records fuel (page + 1)
        (get_token page) (total + page_size)

theorem isEmpty_false_of_ne (s : String) (hs : s ≠ "") : s.isEmpty = false := by
  cases h : s.isEmpty
  · rfl
  · exact absurd ((String.isEmpty_iff s).mp h) hs

theorem is_finished_iff (t : Option String) (total : Nat) (mr : Option Nat)
    (ht : t ≠ some "") :
    is_finished t total mr = true ↔ t = none ∨ ∃ k, mr = some k ∧ k ≤ total := by
  cases t with
  | none => simp [is_finished, truthy]
  | some s =>
    have hs : s.isEmpty = false :=
      isEmpty_false_of_ne s (fun h => ht (congrArg Option.some h))
    cases mr with
    | none => simp [is_finished, truthy, hs]
    | some m => simp [is_finished, truthy, hs]

theorem request_records_loop_ok_aux (tok : Nat → Option String) (p m : Nat)
    (hp : 0 < p)
    (hfresh : ∀ i, (∃ s, tok i = some s ∧ s ≠ "") ∧ tok (i + 1) ≠ tok i) :
    ∀ fuel page prev total, total < m → (m - total + p - 1) / p ≤ fuel →
      prev ≠ tok page →
      request_records_loop tok p (some m) fuel page prev total =
        .ok (page + (m - total + p - 1) / p) := by
  intro fuel
  induction fuel with
  | zero =>
    intro page prev total hlt hfuel _
    exfalso
    have h1 : 1 ≤ (m - total + p - 1) / p := by
      rw [Nat.one_le_div_iff hp]
      omega
    omega
  | succ fuel ih =>
    intro page prev total hlt hfuel hprev
    obtain ⟨⟨s, hts, hs⟩, hne⟩ := hfresh page
    have hsE : s.isEmpty = false := isEmpty_false_of_ne s hs
    have htr : truthy (tok page) = true := by
      rw [hts]; simp [truthy, hsE]
    have hbeq : (tok page == prev) = false := by
      rw [beq_eq_false_iff_ne]
      exact fun h => hprev h.symm
    rw [request_records_loop, htr, hbeq]
    rw [if_neg (by decide)]
    by_cases hfin : m ≤ total + p
    · have hfint : is_finished (tok page) (total + p) (some m) = true := by
        rw [hts]
        simp [is_finished, truthy, hsE, hfin]
      rw [hfint, if_pos rfl]
      have hone : (m - total + p - 1) / p = 1 := by
        apply Nat.div_eq_of_lt_le
        · omega
        · omega
      rw [hone]
    · have hceil : (m - total + p - 1) / p = (m - (total + p) + p - 1) / p + 1 := by
        have harg : m - total + p - 1 = (m - (total + p) + p - 1) + p := by omega
        rw [harg, Nat.add_div_right _ hp]
      have hfinf : is_finished (tok page) (total + p) (some m) = false := by
        rw [hts]
        simp [is_finished, truthy, hsE]
        omega
      rw [hfinf, if_neg (by decide)]
      have hrec := ih (page + 1) (tok page) (total + p) (by omega)
        (by omega) (fun h => hne h.symm)
      rw [hrec, hceil]
      congr 1
      omega

/-- C1: with a server that returns a fresh (distinct, non-null) cursor on every
page and a configured `max_records`, the `_request_records` loop performs
exactly `ceil(max_records / page_size)` page fetches and stops; and in general
`_is_finished(t, total, max)` is true exactly when the cursor is absent or
`max` is non-null with `total ≥ max` (`total` having been incremented by the
configured page size after each page). -/
theorem request_records_pagination_spec
    (tok : Nat → Option String) (p m fuel : Nat)
    (hp : 0 < p) (hm : 0 < m)
    (hfresh : ∀ i, (∃ s, tok i = some s ∧ s ≠ "") ∧ tok (i + 1) ≠ tok i)
    (hfuel : (m + p - 1) / p ≤ fuel)
    (t : Option String) (total : Nat) (mr : Option Nat) (ht : t ≠ some "") :
    request_records_loop tok p (some m) fuel 0 none 0 = .ok ((m + p - 1) / p) ∧
    (is_finished t total mr = true ↔ t = none ∨ ∃ k, mr = some k ∧ k ≤ total) := by
  constructor
  · have h := request_records_loop_ok_aux tok p m hp hfresh fuel 0 none 0 hm
      (by simpa using hfuel)
      (by obtain ⟨⟨s, hts, _⟩, _⟩ := hfresh 0; rw [hts]; exact fun h => Option.noConfusion h)
    simpa using h
  · exact is_finished_iff t total mr ht

/-- A server that alternates between two distinct non-empty tokens
(used to instantiate the freshness hypothesis of the pagination theorems). -/
def altTok (i : Nat) : Option String :=
  if i % 2 = 0 then some "a" else some "b"

theorem altTok_fresh :
    ∀ i, (∃ s, altTok i = some s ∧ s ≠ "") ∧ altTok (i + 1) ≠ altTok i := by
  intro i
  have h : i % 2 = 0 ∨ i % 2 = 1 := by omega
  rcases h with h | h
  · have h1 : (i + 1) % 2 = 1 := by omega
    have ha : altTok i = some "a" := by rw [altTok, if_pos h]
    have hb : altTok (i + 1) = some "b" := by
      rw [altTok, h1]; exact if_neg (by decide)
    exact ⟨⟨"a", ha, by decide⟩, by rw [ha, hb]; decide⟩
  · have h1 : (i + 1) % 2 = 0 := by omega
    have ha : altTok i = some "b" := by
      rw [altTok, h]; exact if_neg (by decide)
    have hb : altTok (i + 1) = some "a" := by rw [altTok, if_pos h1]
    exact ⟨⟨"b", ha, by decide⟩, by rw [ha, hb]; decide⟩

/-- Witness for C1: max_records = 2500, page_size = 1000 gives exactly 3 page
fetches, and `_is_finished` evaluated at a live cursor with total 2400 < 2500. -/
theorem request_records_pagination_spec_witness :
    request_records_loop altTok 1000 (some 2500) 5 0 none 0 = .ok 3 ∧
    (is_finished (some "tk") 2400 (some 2500) = true ↔
      (some "tk" : Option String) = none ∨
        ∃ k, (some 2500 : Option Nat) = some k ∧ k ≤ 2400) := by
  have h := request_records_pagination_spec altTok 1000 2500 5
    (by norm_num) (by norm_num) altTok_fresh (by norm_num)
    (some "tk") 2400 (some 2500) (by simp)
  exact ⟨by rw [h.1], h.2⟩

/-- C2: if the token extracted from the second response is non-null and equal
to the token extracted from the first response, the loop raises the
pagination-loop `RuntimeError` during iteration 2 — after the second request
and before any third request — provided the first page did not already finish
the stream. -/
theorem pagination_loop_detection
    (tok : Nat → Option String) (s : String) (p : Nat) (mr : Option Nat)
    (fuel : Nat)
    (h0 : tok 0 = some s) (h1 : tok 1 = some s) (hs : s ≠ "")
    (hnf : is_finished (some s) p mr = false) (hf : 2 ≤ fuel) :
    request_records_loop tok p mr fuel 0 none 0 = .loopError 2 := by
  obtain ⟨f, rfl⟩ : ∃ f, fuel = f + 2 := ⟨fuel - 2, by omega⟩
  have hsE : s.isEmpty = false := isEmpty_false_of_ne s hs
  rw [request_records_loop, h0]
  rw [if_neg (by simp [truthy, hsE])]
  rw [show (0 + p) = p by omega, hnf, if_neg (by decide)]
  rw [request_records_loop, h1]
  rw [if_pos (by simp [truthy, hsE])]

/-- Witness for C2: a server that returns the static token "x" forever, with
no max-records cap, triggers the loop error after exactly two fetches. -/
theorem pagination_loop_detection_witness :
    request_records_loop (fun _ => some "x") 1000 none 4 0 none 0 =
      .loopError 2 := by
  exact pagination_loop_detection (fun _ => some "x") "x" 1000 none 4
    rfl rfl (by decide) (by decide) (by norm_num)

/-! ## Column renaming: `_normalize_colname` (client.py:303-309) -/

/-- Embedding of Python `colname.replace("ga:", "ga_")`: scan left to right,
replacing each non-overlapping occurrence of `"ga:"` by `"ga_"`; the
replacement text is not rescanned. -/
def replace_ga_colon : List Char → List Char
  | 'g' :: 'a' :: ':' :: rest => 'g' :: 'a' :: '_' :: replace_ga_colon rest
  | c :: rest => c :: replace_ga_colon rest
  | [] => []

/-- One character of the camel-to-snake comprehension in `_normalize_colname`:
`"_" + c.lower() if c.isupper() else c`. -/
def char_step (c : Char) : List Char :=
  if c.isUpper then ['_', c.toLower] else [c]

/-- Embedding of `GoogleAnalyticsStream._normalize_colname`:
`colname.replace("ga:", "ga_")`, then the camel-case comprehension joined and
`.lstrip("_")`. -/
def normalize_colname (colname : String) : String :=
  String.mk (((replace_ga_colon colname.data).flatMap char_step).dropWhile (· == '_'))

theorem char_ofNat_toNat (n : Nat) (h : n < 55296) : (Char.ofNat n).toNat = n := by
  unfold Char.ofNat
  rw [dif_pos (Or.inl h)]
  rfl

theorem char_isUpper_iff (c : Char) : c.isUpper = true ↔ 65 ≤ c.toNat ∧ c.toNat ≤ 90 := by
  simp [Char.isUpper]
  constructor
  · intro ⟨h1, h2⟩
    exact ⟨by exact_mod_cast h1, by exact_mod_cast h2⟩
  · intro ⟨h1, h2⟩
    exact ⟨by exact_mod_cast h1, by exact_mod_cast h2⟩

theorem isUpper_toLower_false (c : Char) (h : c.isUpper = true) :
    (c.toLower).isUpper = false := by
  rw [char_isUpper_iff] at h
  unfold Char.toLower
  rw [if_pos ⟨h.1, h.2⟩]
  have hv : (Char.ofNat (c.toNat + 32)).toNat = c.toNat + 32 :=
    char_ofNat_toNat _ (by omega)
  by_contra hc
  simp only [Bool.not_eq_false] at hc
  rw [char_isUpper_iff, hv] at hc
  omega

theorem char_step_no_upper (l : List Char) :
    ∀ c ∈ l.flatMap char_step, c.isUpper = false := by
  induction l with
  | nil => intro c hc; simp at hc
  | cons a l ih =>
    intro c hc
    rw [List.flatMap_cons, List.mem_append] at hc
    rcases hc with hc | hc
    · by_cases ha : a.isUpper = true
      · rw [char_step, if_pos ha, List.mem_cons, List.mem_cons] at hc
        rcases hc with rfl | rfl | hc
        · decide
        · exact isUpper_toLower_false a ha
        · cases hc
      · rw [char_step, if_neg ha, List.mem_cons] at hc
        rcases hc with rfl | hc
        · exact Bool.eq_false_iff.mpr ha
        · cases hc
    · exact ih c hc

theorem flatMap_char_step_id (l : List Char)
    (h : ∀ c ∈ l, c.isUpper = false) : l.flatMap char_step = l := by
  induction l with
  | nil => rfl
  | cons a l ih =>
    have ha : a.isUpper = false := h a (List.mem_cons_self a l)
    rw [List.flatMap_cons, char_step, if_neg (by rw [ha]; decide)]
    rw [ih (fun c hc => h c (List.mem_cons_of_mem a hc))]
    rfl

/-- Counterexample for C9: the renaming transform is not idempotent on every
column name.  `"Ga:x"` normalizes to `"ga:x"` (the case-sensitive
`replace("ga:", "ga_")` misses `"Ga:"`, and the camel step lowercases the
`G`), and a second application then rewrites the freshly produced `"ga:"`
to `"ga_"`, giving `"ga_x" ≠ "ga:x"`. -/
theorem normalize_colname_not_idempotent :
    normalize_colname (normalize_colname "Ga:x") ≠ normalize_colname "Ga:x" := by
  decide

/-- C9 (amended): `"ga:sessionsPerUser"` maps to `"ga_sessions_per_user"`,
and the transform is idempotent on every column name whose normalized form
contains no remaining `"ga:"` occurrence (i.e. on which the
`replace("ga:", "ga_")` pass is a no-op — true of every name produced from
the usual `ga:`-namespaced inputs). -/
theorem normalize_colname_spec (s : String)
    (h : replace_ga_colon (normalize_colname s).data = (normalize_colname s).data) :
    normalize_colname "ga:sessionsPerUser" = "ga_sessions_per_user" ∧
    normalize_colname (normalize_colname s) = normalize_colname s := by
  constructor
  · decide
  · have ht : (normalize_colname s).data =
        ((replace_ga_colon s.data).flatMap char_step).dropWhile (· == '_') := rfl
    have hnoup : ∀ c ∈ (normalize_colname s).data, c.isUpper = false := by
      intro c hc
      exact char_step_no_upper _ c (List.dropWhile_subset _ hc)
    show String.mk (((replace_ga_colon (normalize_colname s).data).flatMap
        char_step).dropWhile (· == '_')) = normalize_colname s
    rw [h, flatMap_char_step_id _ hnoup, ht, List.dropWhile_idempotent]
    rfl

/-- Witness for C9 (amended): instantiated at `"ga:sessionsPerUser"`, whose
normalized form `"ga_sessions_per_user"` contains no `"ga:"`. -/
theorem normalize_colname_spec_witness :
    normalize_colname "ga:sessionsPerUser" = "ga_sessions_per_user" ∧
    normalize_colname (normalize_colname "ga:sessionsPerUser") =
      normalize_colname "ga:sessionsPerUser" :=
  normalize_colname_spec "ga:sessionsPerUser" (by decide)

/-! ## Type inference (client.py:49-110) -/

/-- Embedding of Python `s.startswith(pre)` (list-of-characters prefix test). -/
def py_startswith (s pre : String) : Bool :=
  pre.data.isPrefixOf s.data

/-- Embedding of Python `s.endswith(suf)` (list-of-characters suffix test). -/
def py_endswith (s suf : String) : Bool :=
  suf.data.isSuffixOf s.data

/-- Python dict membership / subscript on a reference catalog, modelled as an
association list with unique keys: `lookupRef a ref = some t` iff `a in ref`
with `ref[a] = t`. -/
def lookupRef (a : String) (ref : List (String × String)) : Option String :=
  (ref.find? (fun kv => kv.1 == a)).map (·.2)

/-- Embedding of `_parse_other_attrb_type` (client.py:92-100). -/
def parse_other_attrb_type (attr_type : String) : String :=
  if attr_type = "INTEGER" then "integer"
  else if attr_type = "FLOAT" ∨ attr_type = "PERCENT" ∨ attr_type = "TIME" then "number"
  else "string"

/-- Embedding of `_parse_dimension_type` (client.py:49-62); `none` models the
`logger.critical` + `sys.exit(1)` path for an unsupported field name. -/
def parse_dimension_type (attrName : String)
    (dimensions_ref : List (String × String)) : Option String :=
  if attrName = "ga:segment" then some "string"
  else if py_startswith attrName "ga:dimension" || py_startswith attrName "ga:customVarName"
      || py_startswith attrName "ga:customVarValue" then some "string"
  else
    match lookupRef attrName dimensions_ref with
    | some t => some (parse_other_attrb_type t)
    | none => none

/-- The fixed suffix family of the `ga:goalXX...` custom-metric pattern
(client.py:68-77). -/
def goal_suffixes : List String :=
  ["Starts", "Completions", "Value", "ConversionRate", "Abandons", "AbandonRate"]

/-- Embedding of `_parse_metric_type` (client.py:64-90); `none` models the
`sys.exit(1)` path. -/
def parse_metric_type (attrName : String)
    (metrics_ref : List (String × String)) : Option String :=
  if py_startswith attrName "ga:goal" && goal_suffixes.any (fun suf => py_endswith attrName suf)
    then some "string"
  else if py_startswith attrName "ga:searchGoal" && py_endswith attrName "ConversionRate"
    then some "string"
  else if py_startswith attrName "ga:metric" || py_startswith attrName "ga:calcMetric"
    then some "string"
  else
    match lookupRef attrName metrics_ref with
    | some t => some (parse_other_attrb_type t)
    | none => none

/-- Embedding of `_lookup_data_type` (client.py:102-110). -/
def lookup_data_type (kind attrName : String)
    (dimensions_ref metrics_ref : List (String × String)) : Option String :=
  if kind = "dimension" then parse_dimension_type attrName dimensions_ref
  else if kind = "metric" then parse_metric_type attrName metrics_ref
  else none

/-- C3: the ordered pattern rules fire before any catalog lookup (the catalog
is universally quantified in every pattern clause); a pattern-free name is
resolved through the catalog with INTEGER ↦ integer, FLOAT/PERCENT/TIME ↦
number, any other tag ↦ string; and a name absent from both the patterns and
the catalog is the fatal `sys.exit(1)` path (`none`), never a silent
default. -/
theorem type_inference_spec (dref mref : List (String × String))
    (name tag : String) :
    (parse_dimension_type "ga:segment" dref = some "string") ∧
    ((py_startswith name "ga:dimension" || py_startswith name "ga:customVarName"
        || py_startswith name "ga:customVarValue") = true →
      parse_dimension_type name dref = some "string") ∧
    ((py_startswith name "ga:goal" && goal_suffixes.any (fun suf => py_endswith name suf)) = true →
      parse_metric_type name mref = some "string") ∧
    ((py_startswith name "ga:searchGoal" && py_endswith name "ConversionRate") = true →
      parse_metric_type name mref = some "string") ∧
    ((py_startswith name "ga:metric" || py_startswith name "ga:calcMetric") = true →
      parse_metric_type name mref = some "string") ∧
    (name ≠ "ga:segment" →
      (py_startswith name "ga:dimension" || py_startswith name "ga:customVarName"
        || py_startswith name "ga:customVarValue") = false →
      parse_dimension_type name dref = (lookupRef name dref).map parse_other_attrb_type) ∧
    ((py_startswith name "ga:goal" && goal_suffixes.any (fun suf => py_endswith name suf)) = false →
      (py_startswith name "ga:searchGoal" && py_endswith name "ConversionRate") = false →
      (py_startswith name "ga:metric" || py_startswith name "ga:calcMetric") = false →
      parse_metric_type name mref = (lookupRef name mref).map parse_other_attrb_type) ∧
    (parse_other_attrb_type "INTEGER" = "integer" ∧
      parse_other_attrb_type "FLOAT" = "number" ∧
      parse_other_attrb_type "PERCENT" = "number" ∧
      parse_other_attrb_type "TIME" = "number" ∧
      (tag ≠ "INTEGER" → tag ≠ "FLOAT" → tag ≠ "PERCENT" → tag ≠ "TIME" →
        parse_other_attrb_type tag = "string")) ∧
    (lookup_data_type "dimension" name dref mref = parse_dimension_type name dref ∧
      lookup_data_type "metric" name dref mref = parse_metric_type name mref) := by
  refine ⟨?_, ?_, ?_, ?_, ?_, ?_, ?_, ⟨?_, ?_, ?_, ?_, ?_⟩, ?_, ?_⟩
  · rw [parse_dimension_type, if_pos rfl]
  · intro hpat
    rw [parse_dimension_type]
    by_cases hseg : name = "ga:segment"
    · rw [if_pos hseg]
    · rw [if_neg hseg, if_pos hpat]
  · intro hpat
    rw [parse_metric_type, if_pos hpat]
  · intro hpat
    rw [parse_metric_type]
    by_cases hgoal : (py_startswith name "ga:goal"
        && goal_suffixes.any (fun suf => py_endswith name suf)) = true
    · rw [if_pos hgoal]
    · rw [if_neg hgoal, if_pos hpat]
  · intro hpat
    rw [parse_metric_type]
    by_cases hgoal : (py_startswith name "ga:goal"
        && goal_suffixes.any (fun suf => py_endswith name suf)) = true
    · rw [if_pos hgoal]
    · rw [if_neg hgoal]
      by_cases hsg : (py_startswith name "ga:searchGoal" && py_endswith name "ConversionRate") = true
      · rw [if_pos hsg]
      · rw [if_neg hsg, if_pos hpat]
  · intro hseg hpat
    rw [parse_dimension_type, if_neg hseg, if_neg (by rw [hpat]; decide)]
    cases hl : lookupRef name dref <;> simp [hl]
  · intro h1 h2 h3
    rw [parse_metric_type, if_neg (by rw [h1]; decide), if_neg (by rw [h2]; decide),
      if_neg (by rw [h3]; decide)]
    cases hl : lookupRef name mref <;> simp [hl]
  · rfl
  · rfl
  · rfl
  · rfl
  · intro h1 h2 h3 h4
    rw [parse_other_attrb_type, if_neg h1, if_neg (by simp [h2, h3, h4])]
  · rfl
  · rw [lookup_data_type, if_neg (by decide), if_pos rfl]

/-- Witness for C3, exercising every clause of `type_inference_spec` at
concrete names and a concrete catalog: the custom-dimension pattern beats a
contradicting catalog entry, the goal-pattern beats a contradicting catalog
entry, an INTEGER catalog entry infers integer, and a name absent from both
patterns and catalog is the fatal path. -/
theorem type_inference_spec_witness :
    parse_dimension_type "ga:dimension07" [("ga:dimension07", "INTEGER")] = some "string" ∧
    parse_metric_type "ga:goal12Starts" [("ga:goal12Starts", "INTEGER")] = some "string" ∧
    parse_metric_type "ga:searchGoal3ConversionRate" [] = some "string" ∧
    parse_metric_type "ga:calcMetric_foo" [] = some "string" ∧
    parse_dimension_type "ga:users" [("ga:users", "INTEGER")] = some "integer" ∧
    parse_metric_type "ga:bounceRate" [("ga:bounceRate", "PERCENT")] = some "number" ∧
    parse_dimension_type "ga:mystery" [] = none := by
  refine ⟨?_, ?_, ?_, ?_, ?_, ?_, ?_⟩
  · exact (type_inference_spec [("ga:dimension07", "INTEGER")] [] "ga:dimension07" "").2.1
      (by decide)
  · exact (type_inference_spec [] [("ga:goal12Starts", "INTEGER")] "ga:goal12Starts" "").2.2.1
      (by decide)
  · exact (type_inference_spec [] [] "ga:searchGoal3ConversionRate" "").2.2.2.1 (by decide)
  · exact (type_inference_spec [] [] "ga:calcMetric_foo" "").2.2.2.2.1 (by decide)
  · have h := (type_inference_spec [("ga:users", "INTEGER")] [] "ga:users" "").2.2.2.2.2.1
      (by decide) (by decide)
    rw [h]; decide
  · have h := (type_inference_spec [] [("ga:bounceRate", "PERCENT")] "ga:bounceRate"
      "").2.2.2.2.2.2.1 (by decide) (by decide) (by decide)
    rw [h]; decide
  · have h := (type_inference_spec [] [] "ga:mystery" "").2.2.2.2.2.1
      (by decide) (by decide)
    rw [h]; decide

/-! ## Error classification (`_request_data`, client.py:168-207) and the
`backoff` retry wrapper on `_query_api` (client.py:379-381) -/

/-- The observable part of a `googleapiclient.errors.HttpError`: the HTTP
status (`e.resp.status`) and the reason code (`error_reason(e)`). -/
structure HttpErr where
  status : Nat
  reason : String
  deriving DecidableEq, Repr

/-- The exception taxonomy raised by `_request_data`
(`TapGa*Error` classes from `tap_google_analytics.error`). -/
inductive TapError
  | RateLimit
  | QuotaExceeded
  | InvalidArgument
  | Authentication
  | BackendServer
  | Unknown
  deriving DecidableEq, Repr

/-- Embedding of the `except HttpError` classification cascade of
`_request_data` (client.py:178-207): reasons are checked before statuses,
in source order. -/
def classify_error (e : HttpErr) : TapError :=
  if e.reason = "userRateLimitExceeded" ∨ e.reason = "rateLimitExceeded" then .RateLimit
  else if e.reason = "quotaExceeded" then .QuotaExceeded
  else if e.status = 400 then .InvalidArgument
  else if e.status = 401 ∨ e.status = 402 then .Authentication
  else if e.status = 500 ∨ e.status = 503 then .BackendServer
  else .Unknown

/-- One attempt's outcome at the `_query_api` boundary: success, a raised
`HttpError`, or a `socket.timeout`. -/
inductive CallOutcome
  | success
  | httpError (e : HttpErr)
  | socketTimeout
  deriving DecidableEq, Repr

/-- Modelled from the spec: `is_fatal_error` lives in
`tap_google_analytics/error.py`, which is not part of the sources; the spec
states the retry wrapper retries "only on transient-classified exceptions
(socket timeout or BackendServer)" and gives up "immediately on any
fatal-classified error".  So an outcome is fatal iff it is an `HttpError`
whose classification is not BackendServer. -/
def is_fatal_error (o : CallOutcome) : Bool :=
  match o with
  | .success => false
  | .socketTimeout => false
  | .httpError e => !(classify_error e == .BackendServer)

/-- Result of the `@backoff.on_exception(..., max_tries=9, giveup=is_fatal_error)`
wrapper: either some attempt succeeded, or the wrapper re-raised an outcome
(because it was fatal, or the attempt cap was reached); `attempts` counts the
calls actually made. -/
inductive RetryResult
  | success (attempts : Nat)
  | failure (o : CallOutcome) (attempts : Nat)
  deriving DecidableEq, Repr

/-- Embedding of the `backoff.on_exception` retry loop: `tries` is the number
of attempts still allowed, `i` the 0-based index of the next attempt, and
`outcomes j` the outcome of attempt `j + 1`.  A transient failure with tries
remaining retries (after an exponential-backoff sleep, whose duration is not
modelled); a fatal failure or an exhausted cap re-raises. -/
def backoff_run (outcomes : Nat → CallOutcome) : Nat → Nat → RetryResult
  | 0, i => .success i
  | tries + 1, i =>
    if outcomes i == .success then .success (i + 1)
    else if is_fatal_error (outcomes i) || tries == 0 then .failure (outcomes i) (i + 1)
    else backoff_run outcomes tries (i + 1)

/-- The `max_tries=9` instantiation wrapping `_query_api`. -/
def query_api_attempts (outcomes : Nat → CallOutcome) : RetryResult :=
  backoff_run outcomes 9 0

/-- Attempt count carried by a retry result. -/
def RetryResult.attempts : RetryResult → Nat
  | .success n => n
  | .failure _ n => n

theorem backoff_run_attempts_le (outcomes : Nat → CallOutcome) :
    ∀ tries i, (backoff_run outcomes tries i).attempts ≤ i + tries := by
  intro tries
  induction tries with
  | zero => intro i; simp [backoff_run, RetryResult.attempts]
  | succ tries ih =>
    intro i
    rw [backoff_run]
    by_cases hs : (outcomes i == CallOutcome.success) = true
    · rw [if_pos hs]
      simp only [RetryResult.attempts]
      omega
    · rw [if_neg hs]
      by_cases hf : (is_fatal_error (outcomes i) || tries == 0) = true
      · rw [if_pos hf]
        simp only [RetryResult.attempts]
        omega
      · rw [if_neg hf]
        have := ih (i + 1)
        omega

theorem backoff_run_all_transient (outcomes : Nat → CallOutcome)
    (hne : ∀ j, outcomes j ≠ .success)
    (htr : ∀ j, is_fatal_error (outcomes j) = false) :
    ∀ tries i, 0 < tries →
      backoff_run outcomes tries i = .failure (outcomes (i + tries - 1)) (i + tries) := by
  intro tries
  induction tries with
  | zero => intro i h; omega
  | succ tries ih =>
    intro i _
    have hs : (outcomes i == CallOutcome.success) = false := by
      rw [beq_eq_false_iff_ne]; exact hne i
    rw [backoff_run, if_neg (by simp [hs])]
    rcases tries.eq_zero_or_pos with rfl | hpos
    · rw [if_pos (by simp [htr i])]
      have harith : i + (0 + 1) - 1 = i := by omega
      rw [harith]
    · rw [if_neg (by simp [htr i]; omega)]
      have hx := ih (i + 1) hpos
      have harith1 : i + 1 + tries - 1 = i + (tries + 1) - 1 := by omega
      have harith2 : i + 1 + tries = i + (tries + 1) := by omega
      rw [harith1, harith2] at hx
      exact hx

/-- C4: the classification cascade maps reasons and statuses exactly as the
claim lists them (in source order, reasons first); the retry wrapper makes at
most 9 attempts; a fatal-classified first outcome is re-raised immediately
after a single attempt; and with every outcome transient the wrapper only
gives up after exhausting all 9 attempts. -/
theorem error_classification_retry_spec (e : HttpErr)
    (outcomes fatal_outcomes : Nat → CallOutcome)
    (hfat : is_fatal_error (fatal_outcomes 0) = true)
    (hne : ∀ j, outcomes j ≠ .success)
    (htr : ∀ j, is_fatal_error (outcomes j) = false) :
    ((e.reason = "userRateLimitExceeded" ∨ e.reason = "rateLimitExceeded") →
        classify_error e = .RateLimit) ∧
    (e.reason ≠ "userRateLimitExceeded" → e.reason ≠ "rateLimitExceeded" →
      ((e.reason = "quotaExceeded" → classify_error e = .QuotaExceeded) ∧
        (e.reason ≠ "quotaExceeded" →
          ((e.status = 400 → classify_error e = .InvalidArgument) ∧
            (e.status ≠ 400 →
              ((e.status = 401 ∨ e.status = 402) → classify_error e = .Authentication) ∧
              (e.status ≠ 401 → e.status ≠ 402 →
                ((e.status = 500 ∨ e.status = 503) → classify_error e = .BackendServer) ∧
                (e.status ≠ 500 → e.status ≠ 503 → classify_error e = .Unknown))))))) ∧
    ((is_fatal_error .socketTimeout = false ∧
        (is_fatal_error (.httpError e) = false ↔ classify_error e = .BackendServer))) ∧
    (query_api_attempts outcomes).attempts ≤ 9 ∧
    ((query_api_attempts fatal_outcomes) = .failure (fatal_outcomes 0) 1) ∧
    (query_api_attempts outcomes = .failure (outcomes 8) 9) := by
  refine ⟨?_, ?_, ⟨?_, ?_⟩, ?_, ?_, ?_⟩
  · intro h
    rw [classify_error, if_pos h]
  · intro h1 h2
    refine ⟨?_, ?_⟩
    · intro h3
      rw [classify_error, if_neg (by tauto), if_pos h3]
    · intro h3
      refine ⟨?_, ?_⟩
      · intro h4
        rw [classify_error, if_neg (by tauto), if_neg h3, if_pos h4]
      · intro h4
        refine ⟨?_, ?_⟩
        · intro h5
          rw [classify_error, if_neg (by tauto), if_neg h3, if_neg h4, if_pos h5]
        · intro h5 h6
          refine ⟨?_, ?_⟩
          · intro h7
            rw [classify_error, if_neg (by tauto), if_neg h3, if_neg h4,
              if_neg (by tauto), if_pos h7]
          · intro h7 h8
            rw [classify_error, if_neg (by tauto), if_neg h3, if_neg h4,
              if_neg (by tauto), if_neg (by tauto)]
  · rfl
  · rw [is_fatal_error]
    cases h : classify_error e == TapError.BackendServer
    · simp at h
      simp [h]
    · simp at h
      simp [h]
  · exact backoff_run_attempts_le outcomes 9 0
  · have hs : (fatal_outcomes 0 == CallOutcome.success) = false := by
      rw [beq_eq_false_iff_ne]
      intro h
      rw [h] at hfat
      exact absurd hfat (by decide)
    rw [query_api_attempts]
    show backoff_run fatal_outcomes (8 + 1) 0 = _
    rw [backoff_run, if_neg (by simp [hs]), if_pos (by simp [hfat])]
  · have h := backoff_run_all_transient outcomes hne htr 9 0 (by norm_num)
    simpa [query_api_attempts] using h

/-- A server that always answers 503: every attempt is a transient backend
failure. -/
def outcomes503 (_ : Nat) : CallOutcome := .httpError ⟨503, "backendError"⟩

/-- A server that always answers 401: every attempt is a fatal
authentication failure. -/
def outcomes401 (_ : Nat) : CallOutcome := .httpError ⟨401, "authError"⟩

theorem outcomes503_ne_success : ∀ j, outcomes503 j ≠ CallOutcome.success := by
  intro j
  rw [outcomes503]
  decide

theorem outcomes503_transient : ∀ j, is_fatal_error (outcomes503 j) = false := by
  intro j
  rw [outcomes503]
  decide

theorem outcomes401_fatal : is_fatal_error (outcomes401 0) = true := by
  rw [outcomes401]
  decide

/-- Witness for C4: a 503 backend error is transient and retried to
exhaustion (9 attempts), while a 401 authentication error is fatal after one
attempt; concrete classification checks for 401, 503 and quotaExceeded. -/
theorem error_classification_retry_spec_witness :
    classify_error ⟨503, "backendError"⟩ = .BackendServer ∧
    classify_error ⟨401, "authError"⟩ = .Authentication ∧
    classify_error ⟨403, "quotaExceeded"⟩ = .QuotaExceeded ∧
    (query_api_attempts outcomes503).attempts ≤ 9 ∧
    query_api_attempts outcomes401 = .failure (outcomes401 0) 1 ∧
    query_api_attempts outcomes503 = .failure (outcomes503 8) 9 := by
  have h1 := error_classification_retry_spec ⟨503, "backendError"⟩
    outcomes503 outcomes401
    outcomes401_fatal outcomes503_ne_success outcomes503_transient
  have h2 := error_classification_retry_spec ⟨401, "authError"⟩
    outcomes503 outcomes401
    outcomes401_fatal outcomes503_ne_success outcomes503_transient
  have h3 := error_classification_retry_spec ⟨403, "quotaExceeded"⟩
    outcomes503 outcomes401
    outcomes401_fatal outcomes503_ne_success outcomes503_transient
  refine ⟨?_, ?_, ?_, h1.2.2.2.1, h1.2.2.2.2.1, h1.2.2.2.2.2⟩
  · have hb := h1.2.1 (by decide) (by decide)
    have hc := hb.2 (by decide)
    have hd := hc.2 (by decide)
    have he := hd.2 (by decide) (by decide)
    exact he.1 (Or.inr rfl)
  · have hb := h2.2.1 (by decide) (by decide)
    have hc := hb.2 (by decide)
    exact (hc.2 (by decide)).1 (Or.inl rfl)
  · exact (h3.2.1 (by decide) (by decide)).1 rfl

/-! ## Report definition builder: `_generate_report_definition`
(client.py:112-166) -/

/-- Embedding of Python `s.replace("ga_", "ga:")`: scan left to right,
replacing each non-overlapping occurrence of `"ga_"` by `"ga:"`. -/
def replace_ga_underscore : List Char → List Char
  | 'g' :: 'a' :: '_' :: rest => 'g' :: 'a' :: ':' :: replace_ga_underscore rest
  | c :: rest => c :: replace_ga_underscore rest
  | [] => []

/-- `name.replace("ga_", "ga:")` on strings: normalizes an underscore-style
alias back to the colon-form wire name. -/
def ga_colon_name (s : String) : String :=
  String.mk (replace_ga_underscore s.data)

/-- A value inside a filter-clause payload (the operator / expressions /
comparisonValue entries supplied by the user, spliced with `**` into the
built filter). -/
inductive FilterVal
  | str (s : String)
  | strList (l : List String)
  deriving DecidableEq, Repr

/-- The raw report definition dict (`self.report`) as read by
`_generate_report_definition`: required `dimensions` / `metrics` lists and
the optional keys the function looks for.  Filter clauses are an
insertion-ordered dict from target field name to payload; `orderBys` is an
insertion-ordered dict from field name to sort order. -/
structure ReportRaw where
  dimensions : List String
  metrics : List String
  segments : Option (List String) := none
  samplingLevel : Option String := none
  dimensionFilterClauses : Option (List (String × List (String × FilterVal))) := none
  metricFilterClauses : Option (List (String × List (String × FilterVal))) := none
  orderBys : Option (List (String × String)) := none
  page_size : Option Nat := none
  max_records : Option Nat := none
  deriving DecidableEq, Repr

/-- One entry of a built `{key}FilterClauses` list: `{"filters": {...}}`,
whose nested dict holds the `{key}Name` tag first and then the payload keys
in their input order. -/
structure FilterClauseEntry where
  filters : List (String × FilterVal)
  deriving DecidableEq, Repr

/-- The built report definition: `dimensions` holds the `{"name": ...}`
entries, `metrics` the `{"expression": ...}` entries, `segments` the
`{"segmentId": ...}` entries; optional keys are `none` exactly when absent
from the built dict. -/
structure ReportDefinition where
  metrics : List String
  dimensions : List String
  segments : Option (List String)
  samplingLevel : Option String
  dimensionFilterClauses : Option (List FilterClauseEntry)
  metricFilterClauses : Option (List FilterClauseEntry)
  orderBys : Option (List (String × String))
  page_size : Option Nat
  max_records : Option Nat
  deriving DecidableEq, Repr

/-- The flattening loop for `{key}FilterClauses` (client.py:135-150): one
output entry per input clause, in input key order, each tagged
`{key}Name: clause` followed by the payload. -/
def build_filter_clauses (key : String)
    (clauses : List (String × List (String × FilterVal))) : List FilterClauseEntry :=
  clauses.map (fun c => ⟨(key ++ "Name", .str c.1) :: c.2⟩)

/-- Embedding of the static method `_generate_report_definition`
(client.py:112-166). -/
def generate_report_definition (r : ReportRaw) : ReportDefinition :=
  { metrics := r.metrics.map ga_colon_name
    dimensions := r.dimensions.map ga_colon_name
    segments := r.segments
    samplingLevel := r.samplingLevel
    dimensionFilterClauses := r.dimensionFilterClauses.map (build_filter_clauses "dimension")
    metricFilterClauses := r.metricFilterClauses.map (build_filter_clauses "metric")
    orderBys := r.orderBys.map (List.map (fun ob => (ga_colon_name ob.1, ob.2)))
    page_size := r.page_size
    max_records := r.max_records }

/-- C8: with no optional inputs, the built request consists of exactly the
N dimension entries and M metric entries (names normalized from the
underscore alias back to colon form) and no other optional keys; e.g. the
alias `"ga_date"` becomes `"ga:date"` while a colon-form input is passed
through unchanged. -/
theorem report_definition_no_optional_keys (dims mets : List String) :
    (generate_report_definition { dimensions := dims, metrics := mets }).dimensions
        = dims.map ga_colon_name ∧
    (generate_report_definition { dimensions := dims, metrics := mets }).dimensions.length
        = dims.length ∧
    (generate_report_definition { dimensions := dims, metrics := mets }).metrics
        = mets.map ga_colon_name ∧
    (generate_report_definition { dimensions := dims, metrics := mets }).metrics.length
        = mets.length ∧
    (generate_report_definition { dimensions := dims, metrics := mets }).segments = none ∧
    (generate_report_definition { dimensions := dims, metrics := mets }).samplingLevel = none ∧
    (generate_report_definition
        { dimensions := dims, metrics := mets }).dimensionFilterClauses = none ∧
    (generate_report_definition
        { dimensions := dims, metrics := mets }).metricFilterClauses = none ∧
    (generate_report_definition { dimensions := dims, metrics := mets }).orderBys = none ∧
    (generate_report_definition { dimensions := dims, metrics := mets }).page_size = none ∧
    (generate_report_definition { dimensions := dims, metrics := mets }).max_records = none ∧
    ga_colon_name "ga_date" = "ga:date" ∧
    ga_colon_name "ga:sessions" = "ga:sessions" :=
  ⟨rfl, List.length_map _ _, rfl, List.length_map _ _, rfl, rfl, rfl, rfl, rfl,
    rfl, rfl, by decide, by decide⟩

/-- C5: a spec with one dimension filter, one metric filter and two ordering
clauses builds exactly one dimension-filter-clause entry whose nested filter
carries the `dimensionName` tag followed by the operator/value payload,
exactly one metric-filter-clause entry of the same shape, exactly two
ordering entries as (field, direction) pairs in input order; and in general
the flattening maps each clause list to an equally long list of tagged
entries preserving input key order. -/
theorem report_definition_filters_ordering (dims mets : List String)
    (dn mn : String) (dpayload mpayload : List (String × FilterVal))
    (o1 o2 : String × String)
    (cls : List (String × List (String × FilterVal))) :
    (generate_report_definition
        { dimensions := dims, metrics := mets,
          dimensionFilterClauses := some [(dn, dpayload)],
          metricFilterClauses := some [(mn, mpayload)],
          orderBys := some [o1, o2] }).dimensionFilterClauses
        = some [⟨("dimensionName", .str dn) :: dpayload⟩] ∧
    (generate_report_definition
        { dimensions := dims, metrics := mets,
          dimensionFilterClauses := some [(dn, dpayload)],
          metricFilterClauses := some [(mn, mpayload)],
          orderBys := some [o1, o2] }).metricFilterClauses
        = some [⟨("metricName", .str mn) :: mpayload⟩] ∧
    (generate_report_definition
        { dimensions := dims, metrics := mets,
          dimensionFilterClauses := some [(dn, dpayload)],
          metricFilterClauses := some [(mn, mpayload)],
          orderBys := some [o1, o2] }).orderBys
        = some [(ga_colon_name o1.1, o1.2), (ga_colon_name o2.1, o2.2)] ∧
    (generate_report_definition
        { dimensions := dims, metrics := mets,
          dimensionFilterClauses := some cls }).dimensionFilterClauses
        = some (cls.map (fun c => ⟨("dimensionName", FilterVal.str c.1) :: c.2⟩)) ∧
    (generate_report_definition
        { dimensions := dims, metrics := mets,
          metricFilterClauses := some cls }).metricFilterClauses
        = some (cls.map (fun c => ⟨("metricName", FilterVal.str c.1) :: c.2⟩)) ∧
    (cls.map (fun c => FilterClauseEntry.mk (("dimensionName", FilterVal.str c.1) :: c.2))).length
        = cls.length :=
  ⟨rfl, rfl, rfl, rfl, rfl, List.length_map _ _⟩

/-! ## Dates: `_get_end_date` (client.py:43-47) and `_get_state_filter`
(client.py:209-217).  `datetime.strptime` / `strftime` with the `%Y%m%d`,
`%Y-%m-%d` and `%Y%m` formats are embedded on a calendar-date triple;
an unparseable bookmark (uncaught `ValueError`) is `none`. -/

structure Date where
  y : Nat
  m : Nat
  d : Nat
  deriving DecidableEq, Repr

def isLeap (y : Nat) : Bool :=
  (y % 4 == 0 && y % 100 != 0) || y % 400 == 0

def daysInMonth (y m : Nat) : Nat :=
  if m = 2 then (if isLeap y then 29 else 28)
  else if m = 4 ∨ m = 6 ∨ m = 9 ∨ m = 11 then 30
  else 31

/-- The dates accepted by `datetime.strptime` (year 1..9999, real calendar
day). -/
def valid_date (dt : Date) : Bool :=
  decide (1 ≤ dt.y) && decide (dt.y ≤ 9999) && decide (1 ≤ dt.m) &&
    decide (dt.m ≤ 12) && decide (1 ≤ dt.d) && decide (dt.d ≤ daysInMonth dt.y dt.m)

def digitChar (n : Nat) : Char := Char.ofNat (48 + n % 10)

def digitVal (c : Char) : Nat := c.toNat - 48

def pad2 (n : Nat) : List Char := [digitChar (n / 10), digitChar n]

def pad4 (n : Nat) : List Char :=
  [digitChar (n / 1000), digitChar (n / 100), digitChar (n / 10), digitChar n]

/-- `strftime("%Y-%m-%d")`. -/
def format_dashed (dt : Date) : String :=
  String.mk (pad4 dt.y ++ '-' :: (pad2 dt.m ++ '-' :: pad2 dt.d))

/-- `strftime("%Y%m%d")`. -/
def format_compact (dt : Date) : String :=
  String.mk (pad4 dt.y ++ pad2 dt.m ++ pad2 dt.d)

def parse2 (a b : Char) : Option Nat :=
  if a.isDigit && b.isDigit then some (digitVal a * 10 + digitVal b) else none

def parse4 (a b c d : Char) : Option Nat :=
  if a.isDigit && b.isDigit && c.isDigit && d.isDigit then
    some (digitVal a * 1000 + digitVal b * 100 + digitVal c * 10 + digitVal d)
  else none

def mk_valid_date (y m d : Nat) : Option Date :=
  if valid_date ⟨y, m, d⟩ then some ⟨y, m, d⟩ else none

/-- `datetime.strptime(s, "%Y%m%d")`, `none` on `ValueError`. -/
def strptime_compact (s : String) : Option Date :=
  match s.data with
  | [y1, y2, y3, y4, m1, m2, d1, d2] => do
    let y ← parse4 y1 y2 y3 y4
    let m ← parse2 m1 m2
    let d ← parse2 d1 d2
    mk_valid_date y m d
  | _ => none

/-- `datetime.strptime(s, "%Y-%m-%d")`, `none` on `ValueError`. -/
def strptime_dashed (s : String) : Option Date :=
  match s.data with
  | [y1, y2, y3, y4, '-', m1, m2, '-', d1, d2] => do
    let y ← parse4 y1 y2 y3 y4
    let m ← parse2 m1 m2
    let d ← parse2 d1 d2
    mk_valid_date y m d
  | _ => none

/-- `datetime.strptime(s, "%Y%m")`, `none` on `ValueError`. -/
def strptime_ym (s : String) : Option (Nat × Nat) :=
  match s.data with
  | [y1, y2, y3, y4, m1, m2] => do
    let y ← parse4 y1 y2 y3 y4
    let m ← parse2 m1 m2
    if 1 ≤ y ∧ y ≤ 9999 ∧ 1 ≤ m ∧ m ≤ 12 then some (y, m) else none
  | _ => none

/-- `- timedelta(days=1)` on a calendar date. -/
def date_minus_one_day (dt : Date) : Date :=
  if 1 < dt.d then ⟨dt.y, dt.m, dt.d - 1⟩
  else if 1 < dt.m then ⟨dt.y, dt.m - 1, daysInMonth dt.y (dt.m - 1)⟩
  else ⟨dt.y - 1, 12, 31⟩

/-- Embedding of `_get_end_date` (client.py:43-47) applied to a configured
`end_date` (the `datetime.utcnow()` default for a missing key is real-time
and outside the embedding): parse `"%Y-%m-%d"`, subtract one day, format
back. -/
def get_end_date (end_date : String) : Option String :=
  (strptime_dashed end_date).map (fun dt => format_dashed (date_minus_one_day dt))

/-- The `try: strptime("%Y%m%d") except ValueError: strptime("%Y-%m-%d")`
body of `_get_state_filter`, then `strftime("%Y-%m-%d")`. -/
def reformat_bookmark (bookmark : String) : Option String :=
  match strptime_compact bookmark with
  | some dt => some (format_dashed dt)
  | none => (strptime_dashed bookmark).map format_dashed

/-- Embedding of `_get_state_filter` (client.py:209-217):
`state.get("replication_key_value") or self.config["start_date"]` (Python
`or` falls back on `None` and on the empty string), then reformat. -/
def get_state_filter (replication_key_value : Option String)
    (start_date : String) : Option String :=
  reformat_bookmark
    (match replication_key_value with
     | some v => if v = "" then start_date else v
     | none => start_date)

theorem char_isDigit_iff (c : Char) :
    c.isDigit = true ↔ 48 ≤ c.toNat ∧ c.toNat ≤ 57 := by
  simp [Char.isDigit]
  constructor
  · intro ⟨h1, h2⟩
    exact ⟨by exact_mod_cast h1, by exact_mod_cast h2⟩
  · intro ⟨h1, h2⟩
    exact ⟨by exact_mod_cast h1, by exact_mod_cast h2⟩

theorem digitChar_toNat (k : Nat) : (digitChar k).toNat = 48 + k % 10 := by
  rw [digitChar]
  exact char_ofNat_toNat _ (by omega)

theorem isDigit_digitChar (k : Nat) : (digitChar k).isDigit = true := by
  rw [char_isDigit_iff, digitChar_toNat]
  omega

theorem digitVal_digitChar (k : Nat) : digitVal (digitChar k) = k % 10 := by
  rw [digitVal, digitChar_toNat]
  omega

theorem parse2_pad2 (n : Nat) (h : n ≤ 99) :
    parse2 (digitChar (n / 10)) (digitChar n) = some n := by
  rw [parse2, if_pos (by rw [isDigit_digitChar, isDigit_digitChar]; rfl),
    digitVal_digitChar, digitVal_digitChar]
  congr 1
  omega

theorem parse4_pad4 (n : Nat) (h : n ≤ 9999) :
    parse4 (digitChar (n / 1000)) (digitChar (n / 100)) (digitChar (n / 10))
      (digitChar n) = some n := by
  rw [parse4, if_pos (by rw [isDigit_digitChar, isDigit_digitChar,
    isDigit_digitChar, isDigit_digitChar]; rfl),
    digitVal_digitChar, digitVal_digitChar, digitVal_digitChar, digitVal_digitChar]
  congr 1
  omega

theorem valid_date_bounds (y m d : Nat) (h : valid_date ⟨y, m, d⟩ = true) :
    1 ≤ y ∧ y ≤ 9999 ∧ 1 ≤ m ∧ m ≤ 12 ∧ 1 ≤ d ∧ d ≤ daysInMonth y m := by
  rw [valid_date] at h
  simp only [Bool.and_eq_true, decide_eq_true_eq] at h
  exact ⟨h.1.1.1.1.1, h.1.1.1.1.2, h.1.1.1.2, h.1.1.2, h.1.2, h.2⟩

theorem daysInMonth_le_31 (y m : Nat) : daysInMonth y m ≤ 31 := by
  rw [daysInMonth]
  by_cases h2 : m = 2
  · rw [if_pos h2]
    cases isLeap y <;> simp
  · rw [if_neg h2]
    by_cases h30 : m = 4 ∨ m = 6 ∨ m = 9 ∨ m = 11
    · rw [if_pos h30]; omega
    · rw [if_neg h30]

theorem strptime_compact_format (dt : Date) (h : valid_date dt = true) :
    strptime_compact (format_compact dt) = some dt := by
  obtain ⟨y, m, d⟩ := dt
  obtain ⟨hy1, hy2, hm1, hm2, hd1, hd2⟩ := valid_date_bounds y m d h
  have hd31 : d ≤ 31 := le_trans hd2 (daysInMonth_le_31 y m)
  show (do
    let yv ← parse4 (digitChar (y / 1000)) (digitChar (y / 100))
      (digitChar (y / 10)) (digitChar y)
    let mv ← parse2 (digitChar (m / 10)) (digitChar m)
    let dv ← parse2 (digitChar (d / 10)) (digitChar d)
    mk_valid_date yv mv dv) = some ⟨y, m, d⟩
  rw [parse4_pad4 y hy2, parse2_pad2 m (by omega), parse2_pad2 d (by omega)]
  show mk_valid_date y m d = some ⟨y, m, d⟩
  rw [mk_valid_date, if_pos h]

theorem strptime_dashed_format (dt : Date) (h : valid_date dt = true) :
    strptime_dashed (format_dashed dt) = some dt := by
  obtain ⟨y, m, d⟩ := dt
  obtain ⟨hy1, hy2, hm1, hm2, hd1, hd2⟩ := valid_date_bounds y m d h
  have hd31 : d ≤ 31 := le_trans hd2 (daysInMonth_le_31 y m)
  show (do
    let yv ← parse4 (digitChar (y / 1000)) (digitChar (y / 100))
      (digitChar (y / 10)) (digitChar y)
    let mv ← parse2 (digitChar (m / 10)) (digitChar m)
    let dv ← parse2 (digitChar (d / 10)) (digitChar d)
    mk_valid_date yv mv dv) = some ⟨y, m, d⟩
  rw [parse4_pad4 y hy2, parse2_pad2 m (by omega), parse2_pad2 d (by omega)]
  show mk_valid_date y m d = some ⟨y, m, d⟩
  rw [mk_valid_date, if_pos h]

theorem strptime_compact_of_dashed (dt : Date) :
    strptime_compact (format_dashed dt) = none := by
  obtain ⟨y, m, d⟩ := dt
  rfl

theorem format_compact_ne_empty (dt : Date) : format_compact dt ≠ "" := by
  obtain ⟨y, m, d⟩ := dt
  intro hEq
  have := congrArg String.data hEq
  simp [format_compact, pad4] at this

theorem format_dashed_ne_empty (dt : Date) : format_dashed dt ≠ "" := by
  obtain ⟨y, m, d⟩ := dt
  intro hEq
  have := congrArg String.data hEq
  simp [format_dashed, pad4] at this

/-! ## Response normalizer: `_parse_response` (client.py:311-377) and
`_get_next_page_token` (client.py:284-301) -/

/-- A typed record value.  `int` is Python `int(value)`; `num` keeps the raw
wire string of a value the source converts with `round(float(value), 10)`
(IEEE-754 parsing and rounding are outside the embedding); `null` is a
Python `None` value (e.g. a missing `start_date` config key). -/
inductive RecValue
  | str (s : String)
  | int (i : Int)
  | num (raw : String)
  | null
  deriving DecidableEq, Repr

/-- One entry of `columnHeader.metricHeader.metricHeaderEntries`; the source
reads only `.get("name")`, which may be absent (`none`). -/
structure MetricHeaderEntry where
  name : Option String
  deriving DecidableEq, Repr

/-- One entry of a row's `metrics` list; the source reads `.get("values")`
with no default (`none` when the key is absent, making the `zip` fail). -/
structure RowMetrics where
  values : Option (List String)
  deriving DecidableEq, Repr

/-- One row of `report["data"]["rows"]`: `row.get("dimensions", [])` and
`row.get("metrics", [])`. -/
structure ReportRow where
  dimensions : List String := []
  metrics : List RowMetrics := []
  deriving DecidableEq, Repr

/-- `report["columnHeader"]`, with `metricHeader.metricHeaderEntries`
flattened in (the source reads
`columnHeader.get("metricHeader", {}).get("metricHeaderEntries", [])`). -/
structure ColumnHeader where
  dimensions : List String := []
  metricHeaderEntries : List MetricHeaderEntry := []
  deriving DecidableEq, Repr

/-- `report["data"]`: the source reads `.get("rows", [])`. -/
structure ReportData where
  rows : List ReportRow := []
  deriving DecidableEq, Repr

/-- One entry of `response["reports"]`, restricted to the keys the source
reads. -/
structure GAReport where
  columnHeader : Option ColumnHeader := none
  data : Option ReportData := none
  nextPageToken : Option String := none
  deriving DecidableEq, Repr

/-- A raw API response: `response.get("reports", [])` (a missing key and an
empty list are indistinguishable to the source). -/
structure GAResponse where
  reports : List GAReport
  deriving DecidableEq, Repr

/-- Embedding of `_get_next_page_token` (client.py:284-301): `None` when the
reports list is empty, else the first report's `nextPageToken` (which may
itself be absent). -/
def get_next_page_token (response : GAResponse) : Option String :=
  match response.reports with
  | [] => none
  | r :: _ => r.nextPageToken

/-- Python truthiness of the first report dict (`if report:`): the dict is
truthy iff it has at least one of the modelled keys. -/
def report_truthy (r : GAReport) : Bool :=
  r.columnHeader.isSome || r.data.isSome || r.nextPageToken.isSome

/-- Accumulator pass over decimal digits (helper for `py_int`). -/
def digits_to_nat (acc : Nat) : List Char → Option Nat
  | [] => some acc
  | c :: rest =>
    if c.isDigit then digits_to_nat (acc * 10 + digitVal c) rest else none

/-- Embedding of Python `int(value)` on the decimal strings the API serves:
an optional sign followed by a non-empty digit run; anything else is the
fatal `ValueError` path. -/
def py_int (s : String) : Option Int :=
  match s.data with
  | '-' :: c :: rest => (digits_to_nat 0 (c :: rest)).map (fun n => -(n : Int))
  | c :: rest => (digits_to_nat 0 (c :: rest)).map (fun n => (n : Int))
  | [] => none

/-- The per-value coercion of `_parse_response`: integer → `int(value)`
(`none` when unparseable), number → `round(float(value), 10)` (raw string
kept), anything else passes through. -/
def coerce_value (data_type : String) (v : String) : Option RecValue :=
  if data_type = "integer" then (py_int v).map RecValue.int
  else if data_type = "number" then some (RecValue.num v)
  else some (RecValue.str v)

/-- The synthesized date columns of `_parse_response` (client.py:343-357):
a `ga_date` header adds `ga_date_dt` (the `%Y%m%d` value reformatted
`%Y-%m-%d`); a `ga_year_month` header adds `ga_date` (`%Y%m` reformatted
`%Y%m01`) and its `ga_date_dt`.  A `strptime` failure is the fatal
`ValueError` path. -/
def dim_extra_entries (header dimension : String) :
    Option (List (String × RecValue)) :=
  if normalize_colname header = "ga_date" then
    (strptime_compact dimension).map
      (fun dt => [("ga_date_dt", RecValue.str (format_dashed dt))])
  else if normalize_colname header = "ga_year_month" then
    match strptime_ym dimension with
    | none => none
    | some ym =>
      let gadate := format_compact ⟨ym.1, ym.2, 1⟩
      match strptime_compact gadate with
      | none => none
      | some dt2 =>
        some [("ga_date", RecValue.str gadate),
              ("ga_date_dt", RecValue.str (format_dashed dt2))]
  else some []

/-- The `for header, dimension in zip(dimensionHeaders, dimensions)` loop of
`_parse_response` (client.py:329-357): one coerced entry per zipped pair, in
order, plus the synthesized date entries. -/
def process_dimensions (dref mref : List (String × String)) :
    List (String × String) → Option (List (String × RecValue))
  | [] => some []
  | (header, dimension) :: rest => do
    let dt ← lookup_data_type "dimension" header dref mref
    let v ← coerce_value dt dimension
    let extra ← dim_extra_entries header dimension
    let restE ← process_dimensions dref mref rest
    pure (((normalize_colname header, v) :: extra) ++ restE)

/-- The `for metricHeader, value in zip(metricHeaders, values.get("values"))`
loop (client.py:360-371).  A missing `name` key is the fatal path (the
source would call string methods on `None`). -/
def process_metric_pairs (dref mref : List (String × String)) :
    List (MetricHeaderEntry × String) → Option (List (String × RecValue))
  | [] => some []
  | (mh, value) :: rest => do
    let nm ← mh.name
    let mt ← lookup_data_type "metric" nm dref mref
    let v ← coerce_value mt value
    let restE ← process_metric_pairs dref mref rest
    pure ((normalize_colname nm, v) :: restE)

/-- The `for i, values in enumerate(dateRangeValues)` loop (client.py:359):
a missing `values` key is the fatal path (`zip(..., None)` raises). -/
def process_value_sets (dref mref : List (String × String))
    (mhs : List MetricHeaderEntry) :
    List RowMetrics → Option (List (String × RecValue))
  | [] => some []
  | vs :: rest => do
    let vals ← vs.values
    let es ← process_metric_pairs dref mref (mhs.zip vals)
    let restE ← process_value_sets dref mref mhs rest
    pure (es ++ restE)

/-- One record of `_parse_response` (client.py:320-377): `view_id` and
`stream` first, then the dimension entries, then the metric entries, then
`report_start_date` (`self.config.get("start_date")`, possibly `None`) and
`report_end_date` (`self.end_date`).  The record is a Python dict built by
assignment; an assoc list read by `record_get` (last entry wins) models
it. -/
def build_record (view_id stream_name : String)
    (dref mref : List (String × String))
    (dimHeaders : List String) (mhs : List MetricHeaderEntry)
    (start_date : Option String) (end_date : String)
    (row : ReportRow) : Option (List (String × RecValue)) := do
  let dimEntries ← process_dimensions dref mref (dimHeaders.zip row.dimensions)
  let metEntries ← process_value_sets dref mref mhs row.metrics
  pure ([("view_id", RecValue.str view_id), ("stream", RecValue.str stream_name)]
    ++ dimEntries ++ metEntries
    ++ [("report_start_date",
          match start_date with | some s => RecValue.str s | none => RecValue.null),
        ("report_end_date", RecValue.str end_date)])

/-- Embedding of `_parse_response` (client.py:311-377).  `none` models an
uncaught exception: in particular `response.get("reports", [])[0]` raises
`IndexError` on an empty reports list before anything is yielded.  An
untruthy first report yields no records (`some []`). -/
def parse_response (view_id stream_name : String)
    (dref mref : List (String × String))
    (start_date : Option String) (end_date : String)
    (response : GAResponse) : Option (List (List (String × RecValue))) :=
  match response.reports with
  | [] => none
  | report :: _ =>
    if !report_truthy report then some []
    else
      (report.data.getD {}).rows.mapM
        (build_record view_id stream_name dref mref
          (report.columnHeader.getD {}).dimensions
          (report.columnHeader.getD {}).metricHeaderEntries
          start_date end_date)

/-- Reading a key out of a record dict: the last assignment wins, as in a
Python dict. -/
def record_get (r : List (String × RecValue)) (k : String) : Option RecValue :=
  (r.reverse.find? (fun kv => kv.1 == k)).map (·.2)

theorem record_get_last (l : List (String × RecValue)) (x : String × RecValue)
    (k : String) (v : RecValue) :
    record_get (l ++ [x, (k, v)]) k = some v := by
  rw [record_get, List.reverse_append]
  show (List.find? _ ((k, v) :: x :: l.reverse)).map _ = _
  rw [List.find?_cons_of_pos _ (by simp)]
  rfl

theorem build_record_end_date (view_id stream_name : String)
    (dref mref : List (String × String))
    (dimHeaders : List String) (mhs : List MetricHeaderEntry)
    (start_date : Option String) (end_date : String)
    (row : ReportRow) (rec : List (String × RecValue))
    (h : build_record view_id stream_name dref mref dimHeaders mhs
      start_date end_date row = some rec) :
    record_get rec "report_end_date" = some (RecValue.str end_date) := by
  rw [build_record.eq_def] at h
  cases hd : process_dimensions dref mref (dimHeaders.zip row.dimensions) with
  | none => rw [hd] at h; simp at h
  | some dimE =>
    cases hm : process_value_sets dref mref mhs row.metrics with
    | none => rw [hd, hm] at h; simp at h
    | some metE =>
      rw [hd, hm] at h
      simp only [Option.bind_eq_bind, Option.some_bind, Option.pure_def,
        Option.some.injEq] at h
      rw [← h]
      exact record_get_last _ _ _ _

theorem mapM_option_mem {α β : Type} (f : α → Option β) :
    ∀ (l : List α) (res : List β), l.mapM f = some res →
      ∀ b ∈ res, ∃ a ∈ l, f a = some b := by
  intro l
  induction l with
  | nil =>
    intro res h b hb
    simp only [List.mapM_nil, pure, Option.some.injEq] at h
    rw [← h] at hb
    cases hb
  | cons a l ih =>
    intro res h b hb
    rw [List.mapM_cons] at h
    cases hfa : f a with
    | none => rw [hfa] at h; simp at h
    | some fa =>
      cases hfl : l.mapM f with
      | none => rw [hfa, hfl] at h; simp at h
      | some fl =>
        rw [hfa, hfl] at h
        simp only [Option.bind_eq_bind, Option.some_bind, Option.pure_def,
          Option.some.injEq] at h
        rw [← h] at hb
        rcases List.mem_cons.mp hb with rfl | hb2
        · exact ⟨a, List.mem_cons_self a l, hfa⟩
        · obtain ⟨a2, ha2, hfa2⟩ := ih fl hfl b hb2
          exact ⟨a2, List.mem_cons_of_mem a ha2, hfa2⟩

theorem parse_response_end_date (view_id stream_name : String)
    (dref mref : List (String × String))
    (start_date : Option String) (end_date : String)
    (response : GAResponse) (recs : List (List (String × RecValue)))
    (rec : List (String × RecValue))
    (hp : parse_response view_id stream_name dref mref start_date end_date
      response = some recs)
    (hm : rec ∈ recs) :
    record_get rec "report_end_date" = some (RecValue.str end_date) := by
  obtain ⟨reports⟩ := response
  cases reports with
  | nil => simp [parse_response] at hp
  | cons report rest =>
    simp only [parse_response] at hp
    by_cases htr : report_truthy report = true
    · rw [if_neg (by simp [htr])] at hp
      obtain ⟨row, _, hbuild⟩ := mapM_option_mem _ _ recs hp rec hm
      exact build_record_end_date _ _ _ _ _ _ _ _ _ _ hbuild
    · have htr2 : report_truthy report = false := Bool.eq_false_iff.mpr htr
      rw [if_pos (by simp [htr2])] at hp
      injection hp with hp
      rw [← hp] at hm
      cases hm

/-- C7: the start bookmark falls back to the configured start date when the
sync-state value is absent (or empty, which Python `or` also treats as
absent); a compact `YYYYMMDD` bookmark and a dashed `YYYY-MM-DD` bookmark
both reformat to the dashed form; the request's end date is the configured
end date minus one day; and that same end-date value is stamped into the
`report_end_date` field of every record of every parsed response page. -/
theorem start_end_date_spec (start s : String) (dt : Date)
    (hv : valid_date dt = true) (hs : s ≠ "")
    (view_id stream_name : String) (dref mref : List (String × String))
    (sd : Option String) (ed : String)
    (resp : GAResponse) (recs : List (List (String × RecValue)))
    (rec : List (String × RecValue))
    (hp : parse_response view_id stream_name dref mref sd ed resp = some recs)
    (hm : rec ∈ recs) :
    get_state_filter none start = reformat_bookmark start ∧
    get_state_filter (some "") start = reformat_bookmark start ∧
    get_state_filter (some s) start = reformat_bookmark s ∧
    get_state_filter (some (format_compact dt)) start = some (format_dashed dt) ∧
    get_state_filter (some (format_dashed dt)) start = some (format_dashed dt) ∧
    get_end_date (format_dashed dt) = some (format_dashed (date_minus_one_day dt)) ∧
    record_get rec "report_end_date" = some (RecValue.str ed) := by
  refine ⟨rfl, ?_, ?_, ?_, ?_, ?_, ?_⟩
  · show reformat_bookmark (if "" = "" then start else "") = reformat_bookmark start
    rw [if_pos rfl]
  · show reformat_bookmark (if s = "" then start else s) = reformat_bookmark s
    rw [if_neg hs]
  · show reformat_bookmark
      (if format_compact dt = "" then start else format_compact dt) = _
    rw [if_neg (format_compact_ne_empty dt)]
    rw [reformat_bookmark, strptime_compact_format dt hv]
  · show reformat_bookmark
      (if format_dashed dt = "" then start else format_dashed dt) = _
    rw [if_neg (format_dashed_ne_empty dt)]
    rw [reformat_bookmark, strptime_compact_of_dashed dt]
    show (strptime_dashed (format_dashed dt)).map format_dashed = _
    rw [strptime_dashed_format dt hv]
    rfl
  · rw [get_end_date, strptime_dashed_format dt hv]
    rfl
  · exact parse_response_end_date view_id stream_name dref mref sd ed
      resp recs rec hp hm

/-- A concrete single-page response: one report with one `ga:country`
dimension header, one `ga:sessions` metric header, and one row. -/
def witness_response : GAResponse :=
  ⟨[{ columnHeader := some ⟨["ga:country"], [⟨some "ga:sessions"⟩]⟩,
      data := some ⟨[{ dimensions := ["France"], metrics := [⟨some ["12"]⟩] }]⟩,
      nextPageToken := none }]⟩

/-- The record `_parse_response` produces for `witness_response`. -/
def witness_record : List (String × RecValue) :=
  [("view_id", RecValue.str "v"), ("stream", RecValue.str "st"),
   ("ga_country", RecValue.str "France"), ("ga_sessions", RecValue.int 12),
   ("report_start_date", RecValue.str "2021-01-01"),
   ("report_end_date", RecValue.str "2021-03-01")]

/-- Witness for C7, at the bookmark `"20210302"`, the date 2021-03-01
(whose minus-one-day value is 2021-02-28), and a concrete one-row page
parsed with end date `"2021-03-01"`. -/
theorem start_end_date_spec_witness :
    get_state_filter none "2021-01-01" = reformat_bookmark "2021-01-01" ∧
    get_state_filter (some "") "2021-01-01" = reformat_bookmark "2021-01-01" ∧
    get_state_filter (some "20210302") "2021-01-01" = reformat_bookmark "20210302" ∧
    get_state_filter (some (format_compact ⟨2021, 3, 1⟩)) "2021-01-01" =
      some (format_dashed ⟨2021, 3, 1⟩) ∧
    get_state_filter (some (format_dashed ⟨2021, 3, 1⟩)) "2021-01-01" =
      some (format_dashed ⟨2021, 3, 1⟩) ∧
    get_end_date (format_dashed ⟨2021, 3, 1⟩) =
      some (format_dashed (date_minus_one_day ⟨2021, 3, 1⟩)) ∧
    record_get witness_record "report_end_date" =
      some (RecValue.str "2021-03-01") :=
  start_end_date_spec "2021-01-01" "20210302" ⟨2021, 3, 1⟩ (by decide) (by decide)
    "v" "st" [("ga:country", "STRING")] [("ga:sessions", "INTEGER")]
    (some "2021-01-01") "2021-03-01" witness_response [witness_record]
    witness_record (by decide) (by decide)

/-- C10: on a response whose `reports` list is empty, `_get_next_page_token`
returns the absent token, while `_parse_response` indexes
`response.get("reports", [])[0]` unguarded and fails with an `IndexError`
(`none` in the embedding) instead of yielding zero records (`some []`):
the two operations treat the same edge case inconsistently. -/
theorem empty_reports_inconsistency (view_id stream_name : String)
    (dref mref : List (String × String)) (sd : Option String) (ed : String) :
    get_next_page_token ⟨[]⟩ = none ∧
    parse_response view_id stream_name dref mref sd ed ⟨[]⟩ = none ∧
    parse_response view_id stream_name dref mref sd ed ⟨[]⟩ ≠ some [] :=
  ⟨rfl, rfl, by simp [parse_response]⟩

/-! ## Schema synthesizer: the `schema` property (client.py:448-532) -/

/-- Embedding of `_get_datatype` (client.py:423-430): unknown tags default
to string. -/
def get_datatype (string_type : String) : String :=
  if string_type = "string" ∨ string_type = "integer" ∨ string_type = "number"
  then string_type else "string"

/-- The state the `schema` property accumulates: the ordered property list
(column name, type, required flag), the `primary_keys` list, the
`replication_key` assignment, the `date_dimension_included` flag and
whether the incremental-sync-not-supported warning was logged. -/
structure SchemaResult where
  properties : List (String × String × Bool)
  primary_keys : List String
  replication_key : Option String
  date_dimension_included : Bool
  warned : Bool
  deriving DecidableEq, Repr

/-- One iteration of the `for dimension in self.report["dimensions"]` loop
(client.py:468-503): the `ga:date` / `ga:yearMonth` special cases followed
by the shared lookup / property / primary-key appends; `none` is the
`sys.exit(1)` path of `_lookup_data_type`. -/
def schema_step_dim (dref mref : List (String × String))
    (st : SchemaResult) (dimension : String) : Option SchemaResult :=
  let st1 :=
    if dimension = "ga:date" then
      { st with
        date_dimension_included := true
        replication_key := some "ga_date"
        properties := st.properties ++ [("ga_date_dt", "date", true)] }
    else st
  let st2 :=
    if dimension = "ga:yearMonth" then
      { st1 with
        date_dimension_included := true
        replication_key := some "ga_date"
        primary_keys := st1.primary_keys ++ ["ga_date"]
        properties := st1.properties ++
          [("ga_date", "string", true), ("ga_date_dt", "date", true)] }
    else st1
  match lookup_data_type "dimension" dimension dref mref with
  | none => none
  | some data_type =>
    some { st2 with
      properties := st2.properties ++
        [(normalize_colname dimension, get_datatype data_type, true)],
      primary_keys := st2.primary_keys ++ [normalize_colname dimension] }

def schema_fold_dims (dref mref : List (String × String)) :
    SchemaResult → List String → Option SchemaResult
  | st, [] => some st
  | st, d :: ds =>
    match schema_step_dim dref mref st d with
    | none => none
    | some st2 => schema_fold_dims dref mref st2 ds

/-- One iteration of the `for metric in self.report["metrics"]` loop
(client.py:506-511): a non-required property per metric. -/
def schema_step_metric (dref mref : List (String × String))
    (st : SchemaResult) (metric : String) : Option SchemaResult :=
  match lookup_data_type "metric" metric dref mref with
  | none => none
  | some data_type =>
    some { st with
      properties := st.properties ++
        [(normalize_colname metric, get_datatype data_type, false)] }

def schema_fold_metrics (dref mref : List (String × String)) :
    SchemaResult → List String → Option SchemaResult
  | st, [] => some st
  | st, d :: ds =>
    match schema_step_metric dref mref st d with
    | none => none
    | some st2 => schema_fold_metrics dref mref st2 ds

/-- The schema state before the dimension loop: the `view_id` / `stream`
properties and the `view_id` primary key (client.py:455-465). -/
def schema_init : SchemaResult :=
  { properties := [("view_id", "string", true), ("stream", "string", true)]
    primary_keys := ["view_id"]
    replication_key := none
    date_dimension_included := false
    warned := false }

/-- Embedding of the `schema` property (client.py:448-532): `view_id` and
`stream` first, the dimension loop, the metric loop, the report start/end
date properties, and — only when no date-like dimension was seen — the
warning and the start/end primary keys. -/
def schema_of_report (dims mets : List String)
    (dref mref : List (String × String)) : Option SchemaResult :=
  match schema_fold_dims dref mref schema_init dims with
  | none => none
  | some st1 =>
    match schema_fold_metrics dref mref st1 mets with
    | none => none
    | some st2 =>
      let st3 := { st2 with properties := st2.properties ++
        [("report_start_date", "date", true), ("report_end_date", "date", true)] }
      some (if st3.date_dimension_included then st3
        else { st3 with
          warned := true
          primary_keys := st3.primary_keys ++
            ["report_start_date", "report_end_date"] })

/-- The primary-key contribution of the dimension loop: one key per
dimension in declaration order, with an extra `ga_date` key inserted just
before a `ga:yearMonth` dimension's own key. -/
def pk_of_dims (dims : List String) : List String :=
  dims.flatMap (fun d =>
    (if d = "ga:yearMonth" then ["ga_date"] else []) ++ [normalize_colname d])

/-- Whether a dimension list contains a date-like entry (`ga:date` or
`ga:yearMonth`). -/
def date_like (dims : List String) : Bool :=
  dims.any (fun d => d == "ga:date" || d == "ga:yearMonth")

theorem schema_step_dim_spec (dref mref : List (String × String))
    (st : SchemaResult) (d : String) (res : SchemaResult)
    (h : schema_step_dim dref mref st d = some res) :
    res.primary_keys = st.primary_keys ++
      ((if d = "ga:yearMonth" then ["ga_date"] else []) ++ [normalize_colname d]) ∧
    res.date_dimension_included =
      (st.date_dimension_included || (d == "ga:date" || d == "ga:yearMonth")) ∧
    res.replication_key =
      (if d = "ga:date" ∨ d = "ga:yearMonth" then some "ga_date"
       else st.replication_key) ∧
    res.warned = st.warned := by
  by_cases hd : d = "ga:date"
  · have hy : ¬d = "ga:yearMonth" := by rw [hd]; decide
    rw [schema_step_dim] at h
    simp only [if_pos hd, if_neg hy] at h
    cases hl : lookup_data_type "dimension" d dref mref with
    | none => rw [hl] at h; simp at h
    | some data_type =>
      rw [hl] at h
      simp only [Option.some.injEq] at h
      rw [← h]
      refine ⟨by simp [hy], by simp [hd], by simp [hd], rfl⟩
  · by_cases hy : d = "ga:yearMonth"
    · rw [schema_step_dim] at h
      simp only [if_neg hd, if_pos hy] at h
      cases hl : lookup_data_type "dimension" d dref mref with
      | none => rw [hl] at h; simp at h
      | some data_type =>
        rw [hl] at h
        simp only [Option.some.injEq] at h
        rw [← h]
        refine ⟨by simp [hy], by simp [hy], by simp [hy], rfl⟩
    · rw [schema_step_dim] at h
      simp only [if_neg hd, if_neg hy] at h
      cases hl : lookup_data_type "dimension" d dref mref with
      | none => rw [hl] at h; simp at h
      | some data_type =>
        rw [hl] at h
        simp only [Option.some.injEq] at h
        rw [← h]
        refine ⟨by simp [hy], by simp [hd, hy], by simp [hd, hy], rfl⟩

theorem schema_fold_dims_spec (dref mref : List (String × String)) :
    ∀ dims st res, schema_fold_dims dref mref st dims = some res →
      res.primary_keys = st.primary_keys ++ pk_of_dims dims ∧
      res.date_dimension_included =
        (st.date_dimension_included || date_like dims) ∧
      res.replication_key =
        (if date_like dims = true then some "ga_date" else st.replication_key) ∧
      res.warned = st.warned := by
  intro dims
  induction dims with
  | nil =>
    intro st res h
    rw [schema_fold_dims] at h
    simp only [Option.some.injEq] at h
    rw [← h]
    exact ⟨by simp [pk_of_dims], by simp [date_like], by simp [date_like], rfl⟩
  | cons d ds ih =>
    intro st res h
    rw [schema_fold_dims] at h
    cases hstep : schema_step_dim dref mref st d with
    | none => rw [hstep] at h; simp at h
    | some st2 =>
      rw [hstep] at h
      obtain ⟨hpk2, hdate2, hrep2, hw2⟩ := schema_step_dim_spec dref mref st d st2 hstep
      obtain ⟨hpk, hdate, hrep, hw⟩ := ih st2 res h
      have hflat : pk_of_dims (d :: ds) =
          ((if d = "ga:yearMonth" then ["ga_date"] else []) ++ [normalize_colname d])
            ++ pk_of_dims ds := by
        rw [pk_of_dims, pk_of_dims, List.flatMap_cons]
      have hpkgoal : res.primary_keys = st.primary_keys ++ pk_of_dims (d :: ds) := by
        rw [hpk, hpk2, hflat, List.append_assoc]
      have hdl : date_like (d :: ds) =
          ((d == "ga:date" || d == "ga:yearMonth") || date_like ds) := by
        rw [date_like, List.any_cons, ← date_like]
      refine ⟨hpkgoal, ?_, ?_, by rw [hw, hw2]⟩
      · rw [hdate, hdate2, hdl, Bool.or_assoc]
      · rw [hrep, hrep2, hdl]
        by_cases h1 : date_like ds = true
        · simp [h1]
        · have h1f : date_like ds = false := Bool.eq_false_iff.mpr h1
          by_cases h2 : d = "ga:date" ∨ d = "ga:yearMonth"
          · have : (d == "ga:date" || d == "ga:yearMonth") = true := by
              rcases h2 with h2 | h2 <;> simp [h2]
            simp [h1f, this, h2]
          · have : (d == "ga:date" || d == "ga:yearMonth") = false := by
              push_neg at h2
              simp [h2.1, h2.2]
            simp [h1f, this, h2]

theorem schema_fold_metrics_spec (dref mref : List (String × String)) :
    ∀ mets st res, schema_fold_metrics dref mref st mets = some res →
      res.primary_keys = st.primary_keys ∧
      res.date_dimension_included = st.date_dimension_included ∧
      res.replication_key = st.replication_key ∧
      res.warned = st.warned := by
  intro mets
  induction mets with
  | nil =>
    intro st res h
    rw [schema_fold_metrics] at h
    simp only [Option.some.injEq] at h
    rw [← h]
    exact ⟨rfl, rfl, rfl, rfl⟩
  | cons mtr ms ih =>
    intro st res h
    rw [schema_fold_metrics] at h
    cases hstep : schema_step_metric dref mref st mtr with
    | none => rw [hstep] at h; simp at h
    | some st2 =>
      rw [hstep] at h
      obtain ⟨hpk, hdate, hrep, hw⟩ := ih st2 res h
      rw [schema_step_metric] at hstep
      cases hl : lookup_data_type "metric" mtr dref mref with
      | none => rw [hl] at hstep; simp at hstep
      | some data_type =>
        rw [hl] at hstep
        simp only [Option.some.injEq] at hstep
        rw [← hstep] at hpk hdate hrep hw
        exact ⟨hpk, hdate, hrep, hw⟩

theorem date_like_of_mem_date (dims : List String) (hmem : "ga:date" ∈ dims) :
    date_like dims = true := by
  rw [date_like, List.any_eq_true]
  exact ⟨"ga:date", hmem, by decide⟩

theorem pk_of_dims_no_ym (dims : List String)
    (h : ∀ d ∈ dims, d ≠ "ga:yearMonth") :
    pk_of_dims dims = dims.map normalize_colname := by
  induction dims with
  | nil => rfl
  | cons d ds ih =>
    rw [pk_of_dims, List.flatMap_cons, ← pk_of_dims, List.map_cons,
      if_neg (h d (List.mem_cons_self d ds)),
      ih (fun x hx => h x (List.mem_cons_of_mem d hx))]
    rfl

/-- Counterexample for C6: for the dimension list `["ga:yearMonth"]` the
primary-key list is `["view_id", "ga_date", "ga_year_month"]` — the
`ga:yearMonth` branch inserts an extra `ga_date` key (client.py:486), so the
list is NOT the source-view identifier followed by exactly one key per
dimension column. -/
theorem schema_pk_counterexample :
    (schema_of_report ["ga:yearMonth"] [] [("ga:yearMonth", "STRING")] []).map
      (fun r => r.primary_keys) = some ["view_id", "ga_date", "ga_year_month"] ∧
    ("view_id" :: ["ga:yearMonth"].map normalize_colname) ≠
      ["view_id", "ga_date", "ga_year_month"] := by
  exact ⟨by decide, by decide⟩

/-- C6 (amended): whenever the `schema` property completes, (1) the
primary-key list is the source-view identifier, then — per dimension in
declaration order — that dimension's column key, preceded by an extra
`ga_date` key for a `ga:yearMonth` dimension, and finally the report
start/end date keys exactly when no date-like dimension is present; (2) a
dimension list containing `ga:date` fixes the replication key to `ga_date`
and (3) suppresses the start/end primary keys and the diagnostic; (4) with
no date-like dimension no replication key is set and the
incremental-sync-not-supported diagnostic is emitted; (5) for a dimension
list without `ga:yearMonth` the per-dimension keys are exactly one key per
dimension column in declaration order. -/
theorem schema_keys_spec (dims mets : List String)
    (dref mref : List (String × String)) (res : SchemaResult)
    (h : schema_of_report dims mets dref mref = some res) :
    res.primary_keys = "view_id" :: (pk_of_dims dims ++
      (if date_like dims = true then []
       else ["report_start_date", "report_end_date"])) ∧
    ("ga:date" ∈ dims → res.replication_key = some "ga_date") ∧
    (date_like dims = true →
      res.warned = false ∧ res.primary_keys = "view_id" :: pk_of_dims dims) ∧
    (date_like dims = false →
      res.replication_key = none ∧ res.warned = true) ∧
    ((∀ d ∈ dims, d ≠ "ga:yearMonth") →
      pk_of_dims dims = dims.map normalize_colname) := by
  rw [schema_of_report] at h
  cases h1 : schema_fold_dims dref mref schema_init dims with
  | none => rw [h1] at h; simp at h
  | some st1 =>
    simp only [h1] at h
    cases h2 : schema_fold_metrics dref mref st1 mets with
    | none => simp [h2] at h
    | some st2 =>
      simp only [h2, Option.some.injEq] at h
      obtain ⟨hpk1, hdate1, hrep1, hw1⟩ :=
        schema_fold_dims_spec dref mref dims schema_init st1 h1
      obtain ⟨hpk2, hdate2, hrep2, hw2⟩ :=
        schema_fold_metrics_spec dref mref mets st1 st2 h2
      have hinitpk : schema_init.primary_keys = ["view_id"] := rfl
      have hinitd : schema_init.date_dimension_included = false := rfl
      have hinitr : schema_init.replication_key = none := rfl
      have hinitw : schema_init.warned = false := rfl
      rw [hinitpk] at hpk1
      rw [hinitd, Bool.false_or] at hdate1
      rw [hinitr] at hrep1
      rw [hinitw] at hw1
      by_cases hdl : date_like dims = true
      · have hd2 : st2.date_dimension_included = true := by
          rw [hdate2, hdate1, hdl]
        rw [if_pos hd2] at h
        rw [← h]
        refine ⟨?_, ?_, ?_, ?_, pk_of_dims_no_ym dims⟩
        · show st2.primary_keys = _
          rw [hpk2, hpk1, if_pos hdl, List.append_nil]
          rfl
        · intro _
          show st2.replication_key = some "ga_date"
          rw [hrep2, hrep1, if_pos hdl]
        · intro _
          constructor
          · show st2.warned = false
            rw [hw2, hw1]
          · show st2.primary_keys = _
            rw [hpk2, hpk1]
            rfl
        · intro hfalse
          rw [hdl] at hfalse
          cases hfalse
      · have hdlf : date_like dims = false := Bool.eq_false_iff.mpr hdl
        have hd2 : st2.date_dimension_included = false := by
          rw [hdate2, hdate1, hdlf]
        rw [if_neg (by simp [hd2])] at h
        rw [← h]
        refine ⟨?_, ?_, ?_, ?_, pk_of_dims_no_ym dims⟩
        · show st2.primary_keys ++ _ = _
          rw [hpk2, hpk1, if_neg (by simp [hdlf])]
          rfl
        · intro hmem
          exact absurd (date_like_of_mem_date dims hmem) hdl
        · intro htrue
          rw [hdlf] at htrue
          cases htrue
        · intro _
          constructor
          · show st2.replication_key = none
            rw [hrep2, hrep1, if_neg (by simp [hdlf])]
          · rfl

/-- The completed schema state for the witness report
(`dimensions = [ga:date, ga:country]`, `metrics = [ga:sessions]`). -/
def witness_schema : SchemaResult :=
  { properties := [("view_id", "string", true), ("stream", "string", true),
      ("ga_date_dt", "date", true), ("ga_date", "string", true),
      ("ga_country", "string", true), ("ga_sessions", "integer", false),
      ("report_start_date", "date", true), ("report_end_date", "date", true)]
    primary_keys := ["view_id", "ga_date", "ga_country"]
    replication_key := some "ga_date"
    date_dimension_included := true
    warned := false }

/-- Witness for C6 (amended), at the report `{dimensions: [ga:date,
ga:country], metrics: [ga:sessions]}` with a concrete catalog. -/
theorem schema_keys_spec_witness :
    witness_schema.primary_keys = "view_id" :: (pk_of_dims ["ga:date", "ga:country"] ++
      (if date_like ["ga:date", "ga:country"] = true then []
       else ["report_start_date", "report_end_date"])) ∧
    ("ga:date" ∈ ["ga:date", "ga:country"] →
      witness_schema.replication_key = some "ga_date") ∧
    (date_like ["ga:date", "ga:country"] = true →
      witness_schema.warned = false ∧
      witness_schema.primary_keys =
        "view_id" :: pk_of_dims ["ga:date", "ga:country"]) ∧
    (date_like ["ga:date", "ga:country"] = false →
      witness_schema.replication_key = none ∧ witness_schema.warned = true) ∧
    ((∀ d ∈ ["ga:date", "ga:country"], d ≠ "ga:yearMonth") →
      pk_of_dims ["ga:date", "ga:country"] =
        ["ga:date", "ga:country"].map normalize_colname) :=
  schema_keys_spec ["ga:date", "ga:country"] ["ga:sessions"]
    [("ga:date", "STRING"), ("ga:country", "STRING")] [("ga:sessions", "INTEGER")]
    witness_schema (by decide)

end TapGA
